import Mathlib

/-!
Shallow embedding of the InsightMesh backend pipeline (FastAPI service in
`main.py`, agent tool functions in `sub_agents/*/agent.py`, the LLM client in
`utils/llm_client.py`, and the HTML report generator / report store in
`utils/html_report_generator.py` plus the `/reports` endpoints).

Modelling conventions:
- A pandas `DataFrame` is a list of typed columns (numeric columns hold
  `Option ℚ` cells, object/string columns hold `Option String` cells; `none`
  models a missing value / NaN cell).
- Python exceptions are modelled with `Except String`; external collaborators
  (`pd.read_csv`, the Gemini call, `DataFrame.to_string`, disk writes) are
  parameters of the functions that call them.
- `datetime.now()` is modelled by passing the current instant explicitly.
- Machine floats of pandas are modelled as exact rationals; the sample
  standard deviation, the one irrational statistic, is represented exactly by
  the `StatVal.sqrtOf v` constructor standing for `√v`.
-/

namespace InsightMesh

/-! ### Python string helpers -/

/-- One step of Python `str.replace`: does `pat` occur at the head of `s`? -/
def matchesAt : List Char → List Char → Bool
  | [], _ => true
  | _ :: _, [] => false
  | p :: ps, c :: cs => p = c && matchesAt ps cs

/-- Python `str.replace(old, new)` with a nonempty pattern `o :: os`:
left-to-right scan replacing non-overlapping occurrences.  Each step consumes
at least one character, so `fuel = s.length` suffices; the fuel only makes
the recursion structural. -/
def pyReplaceAux (o : Char) (os new : List Char) : Nat → List Char → List Char
  | _, [] => []
  | 0, s => s
  | fuel + 1, c :: cs =>
    if matchesAt (o :: os) (c :: cs) then
      new ++ pyReplaceAux o os new fuel (cs.drop os.length)
    else
      c :: pyReplaceAux o os new fuel cs

/-- Python `str.replace(old, new)`.  An empty `old` interleaves `new` between
every character, matching CPython. -/
def pyReplace (s old new : String) : String :=
  match old.data with
  | [] => ⟨s.data.foldr (fun c acc => new.data ++ c :: acc) new.data⟩
  | o :: os => ⟨pyReplaceAux o os new.data s.data.length s.data⟩

/-- Python `str.endswith`. -/
def pyEndsWith (s suffix : String) : Bool :=
  matchesAt suffix.data.reverse s.data.reverse

/-- Python `str.strip()` (whitespace strip, as used on the LLM response). -/
def pyStrip (s : String) : String := s.trim

/-! ### Timestamps (`datetime.now()` instants) -/

/-- A clock instant, as far as the two `strftime` formats in the source need. -/
structure DateTime6 where
  year : Nat
  month : Nat
  day : Nat
  hour : Nat
  minute : Nat
  second : Nat
deriving DecidableEq, Repr

/-- Zero-pad a decimal rendering to `w` digits (as `strftime` does). -/
def padZero (w : Nat) (n : Nat) : String :=
  let s := toString n
  ⟨List.replicate (w - s.length) '0' ++ s.data⟩

/-- `strftime("%Y%m%d_%H%M%S")` — the report-id timestamp component. -/
def strftimeCompact (t : DateTime6) : String :=
  padZero 4 t.year ++ padZero 2 t.month ++ padZero 2 t.day ++ "_" ++
    padZero 2 t.hour ++ padZero 2 t.minute ++ padZero 2 t.second

/-- `%B` month names. -/
def monthName : Nat → String
  | 1 => "January" | 2 => "February" | 3 => "March" | 4 => "April"
  | 5 => "May" | 6 => "June" | 7 => "July" | 8 => "August"
  | 9 => "September" | 10 => "October" | 11 => "November" | 12 => "December"
  | _ => ""

/-- `strftime("%B %d, %Y at %I:%M %p")` — the "Generated on" line. -/
def strftimeLong (t : DateTime6) : String :=
  let h12 := if t.hour % 12 = 0 then 12 else t.hour % 12
  let ampm := if t.hour < 12 then "AM" else "PM"
  monthName t.month ++ " " ++ padZero 2 t.day ++ ", " ++ padZero 4 t.year ++
    " at " ++ padZero 2 h12 ++ ":" ++ padZero 2 t.minute ++ " " ++ ampm

/-! ### The tabular data model -/

/-- A pandas statistic value as it appears in `describe().to_dict()`:
an exact number, `√v` (the sample std), a string (object-column `top`),
or NaN. -/
inductive StatVal where
  | num (x : ℚ)
  | sqrtOf (v : ℚ)
  | str (v : String)
  | nan
deriving DecidableEq, Repr

/-- A typed pandas column: numeric (float/int dtype, `none` = NaN) or
object/string dtype (`none` = NaN). -/
inductive Col where
  | numeric (name : String) (cells : List (Option ℚ))
  | object (name : String) (cells : List (Option String))
deriving DecidableEq, Repr

def Col.name : Col → String
  | .numeric n _ => n
  | .object n _ => n

def Col.isNumeric : Col → Bool
  | .numeric _ _ => true
  | .object _ _ => false

def Col.size : Col → Nat
  | .numeric _ cs => cs.length
  | .object _ cs => cs.length

/-- Number of null (NaN) cells in a column — `df[col].isnull().sum()`. -/
def Col.nullCount : Col → Nat
  | .numeric _ cs => (cs.filter Option.isNone).length
  | .object _ cs => (cs.filter Option.isNone).length

/-- A parsed CSV — a pandas `DataFrame` (rectangular; column order is the
header order). -/
structure DataFrame where
  cols : List Col
deriving DecidableEq, Repr

def DataFrame.numRows (df : DataFrame) : Nat :=
  match df.cols with
  | [] => 0
  | c :: _ => c.size

def DataFrame.numColumns (df : DataFrame) : Nat := df.cols.length

def DataFrame.columnNames (df : DataFrame) : List String := df.cols.map Col.name

/-! ### `DataFrame.describe(include="all")` — the analyzer's statistics

`sub_agents/analyzer/agent.py` computes `dataframe.describe(include="all").to_dict()`.
`describe` emits, per column, the statistics applicable to its dtype; with
`include="all"` the row index is the union over the dtypes present, and
`to_dict` fills the inapplicable rows of each column with NaN.
-/

/-- Insertion sort on rationals (the order pandas uses for quantiles). -/
def sortQ : List ℚ → List ℚ
  | [] => []
  | x :: xs => insertQ x (sortQ xs)
where
  insertQ (x : ℚ) : List ℚ → List ℚ
    | [] => [x]
    | y :: ys => if x ≤ y then x :: y :: ys else y :: insertQ x ys

/-- Linear-interpolation quantile of a sorted nonempty list
(pandas' default `interpolation="linear"`). -/
def quantileQ (v : List ℚ) (p : ℚ) : ℚ :=
  let n := v.length
  let pos := p * ((n : ℚ) - 1)
  let i := pos.floor.toNat
  let frac := pos - (i : ℚ)
  let a := v.getD i 0
  let b := v.getD (i + 1) a
  a + (b - a) * frac

/-- Non-missing values of a numeric column. -/
def validQ (cells : List (Option ℚ)) : List ℚ := cells.filterMap id

/-- Sample mean of the non-missing values (NaN when there are none). -/
def meanStat (vs : List ℚ) : StatVal :=
  if vs.length = 0 then .nan else .num (vs.sum / (vs.length : ℚ))

/-- Sample standard deviation (`ddof=1`), represented exactly as
`√(Σ(x−μ)²/(n−1))`; NaN when `n ≤ 1`. -/
def stdStat (vs : List ℚ) : StatVal :=
  let n := vs.length
  if n ≤ 1 then .nan
  else
    let μ := vs.sum / (n : ℚ)
    .sqrtOf ((vs.map (fun x => (x - μ) ^ 2)).sum / ((n : ℚ) - 1))

def minStat (vs : List ℚ) : StatVal :=
  match sortQ vs with
  | [] => .nan
  | x :: _ => .num x

def maxStat (vs : List ℚ) : StatVal :=
  match (sortQ vs).reverse with
  | [] => .nan
  | x :: _ => .num x

def quantileStat (vs : List ℚ) (p : ℚ) : StatVal :=
  if vs.length = 0 then .nan else .num (quantileQ (sortQ vs) p)

/-- Count occurrences of `v` in `vs`. -/
def countOcc (v : String) (vs : List String) : Nat :=
  (vs.filter (fun w => w = v)).length

/-- `value_counts().index[0]` for an object column: a most frequent value.
pandas leaves the tie order unspecified; we take the earliest first
occurrence among the values of maximal count. -/
def topValue : List String → Option String
  | [] => none
  | v :: vs =>
    (v :: vs).dedup.foldl
      (fun best cand =>
        match best with
        | none => some cand
        | some b => if countOcc cand (v :: vs) > countOcc b (v :: vs) then some cand else best)
      none

/-- The numeric-dtype `describe` rows for one numeric column; when an object
column is also present (`hasObj`), `to_dict` pads with the object rows as NaN. -/
def numericEntry (hasObj : Bool) (cells : List (Option ℚ)) : List (String × StatVal) :=
  let vs := validQ cells
  [("count", .num (vs.length : ℚ))] ++
    (if hasObj then [("unique", .nan), ("top", .nan), ("freq", .nan)] else []) ++
    [("mean", meanStat vs), ("std", stdStat vs), ("min", minStat vs),
     ("25%", quantileStat vs (1/4)), ("50%", quantileStat vs (1/2)),
     ("75%", quantileStat vs (3/4)), ("max", maxStat vs)]

/-- The object-dtype `describe` rows for one object column; when a numeric
column is also present (`hasNum`), `to_dict` pads with the numeric rows as NaN. -/
def objectEntry (hasNum : Bool) (cells : List (Option String)) : List (String × StatVal) :=
  let vs := cells.filterMap id
  [("count", .num (vs.length : ℚ)),
   ("unique", .num (vs.dedup.length : ℚ)),
   ("top", match topValue vs with | some v => .str v | none => .nan),
   ("freq", match topValue vs with
            | some v => .num (countOcc v vs : ℚ)
            | none => .nan)] ++
    (if hasNum then
      [("mean", .nan), ("std", .nan), ("min", .nan),
       ("25%", .nan), ("50%", .nan), ("75%", .nan), ("max", .nan)]
     else [])

def describeEntry (hasNum hasObj : Bool) : Col → List (String × StatVal)
  | .numeric _ cells => numericEntry hasObj cells
  | .object _ cells => objectEntry hasNum cells

/-- `describe(include="all").to_dict()`: one entry per column, keyed by the
column name, in column order. -/
def describeAll (df : DataFrame) : List (String × List (String × StatVal)) :=
  let hasNum := df.cols.any Col.isNumeric
  let hasObj := df.cols.any (fun c => ¬ c.isNumeric)
  df.cols.map (fun c => (c.name, describeEntry hasNum hasObj c))

/-! ### The agent tool functions -/

/-- `numeric_summary` — the analyzer output / `describe` dictionary. -/
abbrev NumSummary := List (String × List (String × StatVal))

/-- `null_summary` — column name ↦ missing-value count. -/
abbrev NullSummary := List (String × Nat)

/-- Output of `ingestion_tool` (`sub_agents/ingestor/agent.py`): the dict
`{dataframe, filename, num_rows, num_columns, column_names}`. -/
structure IngestOut where
  dataframe : DataFrame
  filename : String
  num_rows : Nat
  num_columns : Nat
  column_names : List String
deriving DecidableEq, Repr

/-- `ingestion_tool(path)`: `pd.read_csv(path)` (the external collaborator
`readCsv`) wrapped into the result dict. -/
def ingestion_tool (readCsv : String → Except String DataFrame) (path : String) :
    Except String IngestOut :=
  (readCsv path).map fun df =>
    { dataframe := df
      filename := path
      num_rows := df.numRows
      num_columns := df.numColumns
      column_names := df.columnNames }

/-- Output of `cleaning_tool` (`sub_agents/cleaner/agent.py`). -/
structure CleanOut where
  null_summary : NullSummary
  suggestions : List String
deriving DecidableEq, Repr

/-- `cleaning_tool(dataframe)`: `isnull().sum()` per column plus one
"Fill missing values in {col}" suggestion per column with a nonzero count. -/
def cleaning_tool (df : DataFrame) : CleanOut :=
  let nulls := df.cols.map (fun c => (c.name, c.nullCount))
  { null_summary := nulls
    suggestions := nulls.filterMap (fun nc =>
      if nc.2 > 0 then some ("Fill missing values in " ++ nc.1) else none) }

/-- `analysis_tool(dataframe)` (`sub_agents/analyzer/agent.py`):
`describe(include="all").to_dict()`; raises on a frame with no columns. -/
def analysis_tool (df : DataFrame) : Except String NumSummary :=
  if df.cols.isEmpty then .error "Cannot describe a DataFrame without columns"
  else .ok (describeAll df)

/-- The fixed prompt preamble of `utils/llm_client.py`. -/
def llmPromptPreamble : String :=
  "You are a smart business analyst. Given the following Pandas-style statistical summary of a dataset, write a clear, natural-language summary of the key insights:\n\n"

/-- `summarize_with_llm(stats_text)` (`utils/llm_client.py`): call the model
(the external collaborator `llm`; `none` models a raised exception), strip the
response; on any exception fall back to the templated dump of the stats. -/
def summarize_with_llm (llm : String → Option String) (statsText : String) : String :=
  match llm (llmPromptPreamble ++ statsText) with
  | some t => pyStrip t
  | none => "(LLM unavailable) Key data statistics:\n" ++ statsText

/-- Output of `summarizer_tool` (`sub_agents/summarizer/agent.py`). -/
structure SummOut where
  summary_text : String
deriving DecidableEq, Repr

/-- `summarizer_tool(numeric_summary, cleaned)`: render the stats with
`pd.DataFrame(...).to_string()` (external collaborator `pdToString`) and
summarize via the LLM client.  The `cleaned` argument is accepted and unused,
as in the source. -/
def summarizer_tool (llm : String → Option String) (pdToString : NumSummary → String)
    (numeric_summary : NumSummary) (_cleaned : NullSummary) : SummOut :=
  { summary_text := summarize_with_llm llm (pdToString numeric_summary) }

/-! ### The pipeline runner (`main.py`, `/analyze`, lines 112–255)

`main.py` calls each agent's tool function directly inside its own
`try/except`.  The runner is parameterized by the four stage functions
(each `Except`-valued: `.error` models any exception raised inside the
stage), which `main.py` instantiates with the tool functions above.
-/

/-- The per-stage `output` dict recorded in `processing_steps`. -/
inductive StepOutput where
  | ingest (filename : String) (num_rows : Nat) (num_columns : Nat)
      (column_names : List String)
  | clean (null_summary : NullSummary) (suggestions : List String)
  | analyze (numeric_summary : NumSummary)
  | summarize (summary_text : String)
deriving DecidableEq, Repr

/-- One entry of `processing_steps` (`{step, agent, description, status,
output?, error?}`). -/
structure StageResult where
  step : String
  agent : String
  description : String
  status : String
  output : Option StepOutput
  error : Option String
deriving DecidableEq, Repr

/-- The `shared_state` dict threaded through the stages.  Every key a stage
may write is optional: absence models the key never having been set. -/
structure SharedState where
  uploaded_file : String
  dataframe : Option DataFrame := none
  filename : Option String := none
  num_rows : Option Nat := none
  num_columns : Option Nat := none
  column_names : Option (List String) := none
  null_summary : Option NullSummary := none
  suggestions : Option (List String) := none
  numeric_summary : Option NumSummary := none
  summary_text : Option String := none
deriving DecidableEq, Repr

/-- Outcome of the pipeline section of `analyze_csv_data`: either the fatal
`HTTPException(500, "Data ingestion failed: …")` raised when the ingestor
fails (with the steps recorded so far), or the final state and steps. -/
inductive PipelineOutcome where
  | fatal (steps : List StageResult) (detail : String)
  | done (steps : List StageResult) (state : SharedState)
deriving DecidableEq, Repr

def PipelineOutcome.steps : PipelineOutcome → List StageResult
  | .fatal s _ => s
  | .done s _ => s

def ingestorDescription : String := "Load and parse the uploaded CSV file"
def cleanerDescription : String := "Clean and validate the dataset"
def analyzerDescription : String := "Perform basic descriptive statistics"
def summarizerDescription : String := "Generate LLM-based summary of insights"

/-- Steps 1–4 of `analyze_csv_data` (`main.py` lines 112–234), faithful to the
four `try/except` blocks, the `shared_state.get("dataframe") is None` guards,
and the `if numeric_summary:` truthiness guard. -/
def runPipeline
    (ingestF : String → Except String IngestOut)
    (cleanF : DataFrame → Except String CleanOut)
    (analyzeF : DataFrame → Except String NumSummary)
    (summarizeF : NumSummary → NullSummary → Except String SummOut)
    (tempFilePath : String) : PipelineOutcome :=
  let state0 : SharedState := { uploaded_file := tempFilePath }
  -- Step 1: Ingestor (failure is fatal: raises HTTPException 500)
  match ingestF tempFilePath with
  | .error e =>
    .fatal
      [{ step := "ingestor", agent := "ingestor", description := ingestorDescription
         status := "failed", output := none, error := some e }]
      ("Data ingestion failed: " ++ e)
  | .ok ir =>
    let state1 : SharedState :=
      { state0 with
        dataframe := some ir.dataframe, filename := some ir.filename
        num_rows := some ir.num_rows, num_columns := some ir.num_columns
        column_names := some ir.column_names }
    let step1 : StageResult :=
      { step := "ingestor", agent := "ingestor", description := ingestorDescription
        status := "completed"
        output := some (.ingest ir.filename ir.num_rows ir.num_columns ir.column_names)
        error := none }
    -- Step 2: Cleaner (non-fatal)
    let (step2, state2) : StageResult × SharedState :=
      match state1.dataframe with
      | some df =>
        match cleanF df with
        | .ok co =>
          ({ step := "cleaner", agent := "cleaner", description := cleanerDescription
             status := "completed", output := some (.clean co.null_summary co.suggestions)
             error := none },
           { state1 with null_summary := some co.null_summary
                         suggestions := some co.suggestions })
        | .error e =>
          ({ step := "cleaner", agent := "cleaner", description := cleanerDescription
             status := "failed", output := none, error := some e }, state1)
      | none =>
        ({ step := "cleaner", agent := "cleaner", description := cleanerDescription
           status := "failed", output := none
           error := some "No dataframe available from ingestor" }, state1)
    -- Step 3: Analyzer (non-fatal)
    let (step3, state3) : StageResult × SharedState :=
      match state2.dataframe with
      | some df =>
        match analyzeF df with
        | .ok ns =>
          ({ step := "analyzer", agent := "analyzer", description := analyzerDescription
             status := "completed", output := some (.analyze ns), error := none },
           { state2 with numeric_summary := some ns })
        | .error e =>
          ({ step := "analyzer", agent := "analyzer", description := analyzerDescription
             status := "failed", output := none, error := some e }, state2)
      | none =>
        ({ step := "analyzer", agent := "analyzer", description := analyzerDescription
           status := "failed", output := none
           error := some "No dataframe available for analysis" }, state2)
    -- Step 4: Summarizer (non-fatal); `numeric_summary = get(…, {})` then
    -- `if numeric_summary:` — an absent or empty dict takes the raise branch.
    let ns := state3.numeric_summary.getD []
    let (step4, state4) : StageResult × SharedState :=
      if ns.isEmpty then
        ({ step := "summarizer", agent := "summarizer"
           description := summarizerDescription
           status := "failed", output := none
           error := some "No analysis results available for summarization" }, state3)
      else
        match summarizeF ns (state3.null_summary.getD []) with
        | .ok so =>
          ({ step := "summarizer", agent := "summarizer"
             description := summarizerDescription
             status := "completed", output := some (.summarize so.summary_text)
             error := none },
           { state3 with summary_text := some so.summary_text })
        | .error e =>
          ({ step := "summarizer", agent := "summarizer"
             description := summarizerDescription
             status := "failed", output := none, error := some e }, state3)
    .done [step1, step2, step3, step4] state4

/-! ### The insights / response records built by `main.py` (lines 239–291) -/

/-- The `insights["html_report"]` record added after a successful save. -/
structure HtmlReportInfo where
  report_id : String
  report_path : String
  report_url : String
deriving DecidableEq, Repr

/-- `insights["data_info"]` (each value is a `shared_state.get`, so may be
`None`). -/
structure DataInfo where
  filename : Option String
  rows : Option Nat
  columns : Option Nat
  column_names : Option (List String)
deriving DecidableEq, Repr

/-- `insights["cleaning_info"]`. -/
structure CleaningInfo where
  null_summary : Option NullSummary
  suggestions : Option (List String)
deriving DecidableEq, Repr

/-- The `insights` dict compiled by `analyze_csv_data`. -/
structure Insights where
  framework : String := "Google Agentic ADK"
  pipeline_execution : String := "completed"
  data_info : DataInfo
  cleaning_info : CleaningInfo
  analysis_results : Option NumSummary
  file_processed : String
  html_report : Option HtmlReportInfo := none
deriving DecidableEq, Repr

/-- The `analysis_data` dict handed to `generate_html_report`. -/
structure AnalysisData where
  insights : Insights
  summary : String
  processing_steps : List StageResult
deriving DecidableEq, Repr

/-! ### `utils/html_report_generator.py` -/

/-- Python `str.title()` (used on step names and metric names). -/
def pyTitle (s : String) : String :=
  ⟨go false s.data⟩
where
  go : Bool → List Char → List Char
    | _, [] => []
    | prevCased, c :: cs =>
      if c.isAlpha then
        (if prevCased then c.toLower else c.toUpper) :: go true cs
      else
        c :: go false cs

/-- `format_summary_text`: markdown-ish rewriting of the summary.  (The
source's second `.replace('**', '</strong>')` and `.replace('*', '</em>')`
find nothing, because the first replace already consumed every occurrence;
the chain is embedded as written.) -/
def format_summary_text (summary : String) : String :=
  if summary = "" then "<p>No summary available.</p>"
  else
    let f1 := pyReplace summary "\n\n" "</p><p>"
    let f2 := pyReplace f1 "\n" "<br>"
    let f3 := pyReplace (pyReplace f2 "**" "<strong>") "**" "</strong>"
    let f4 := pyReplace (pyReplace f3 "*" "<em>") "*" "</em>"
    "<p>" ++ f4 ++ "</p>"

/-- The "Key Output" cell of the processing table, per stage. -/
def keyOutputOf (step : StageResult) : String :=
  if step.step = "ingestor" then
    (match step.output with
     | some (.ingest _ nr _ _) => toString nr
     | _ => "0") ++ " rows loaded"
  else if step.step = "cleaner" then
    (match step.output with
     | some (.clean _ sug) => toString sug.length
     | _ => "0") ++ " cleaning suggestions"
  else if step.step = "analyzer" then "Statistical analysis completed"
  else if step.step = "summarizer" then
    "Summary generated (" ++
      (match step.output with
       | some (.summarize t) => toString t.length
       | _ => "0") ++ " chars)"
  else "No output"

/-- `generate_processing_table`: one `<tr>` per processing step. -/
def generate_processing_table (steps : List StageResult) : String :=
  String.join (steps.map fun step =>
    let statusClass :=
      if step.status = "completed" then "status-completed" else "status-failed"
    "<tr><td><strong>" ++ pyTitle step.step ++ "</strong></td><td>" ++
      step.agent ++ "</td><td>" ++ step.description ++
      "</td><td><span class=\"status-badge " ++ statusClass ++ "\">" ++
      step.status ++ "</span></td><td>" ++ keyOutputOf step ++ "</td></tr>")

/-- `generate_cleaning_section`. -/
def generate_cleaning_section (ci : CleaningInfo) : String :=
  match ci.null_summary with
  | none => "<p>No cleaning analysis available.</p>"
  | some [] => "<p>No cleaning analysis available.</p>"
  | some ns =>
    let nullTable :=
      "<table><thead><tr><th>Column</th><th>Missing Values</th></tr></thead><tbody>" ++
        String.join (ns.map fun nc =>
          "<tr><td>" ++ nc.1 ++ "</td><td>" ++ toString nc.2 ++ "</td></tr>") ++
        "</tbody></table>"
    let sugg := ci.suggestions.getD []
    let suggHtml :=
      if sugg.isEmpty then
        "<div class='highlight'>No data quality issues found.</div>"
      else
        "<h4>Cleaning Suggestions:</h4><ul>" ++
          String.join (sugg.map fun s => "<li>" ++ s ++ "</li>") ++ "</ul>"
    "<h3>Missing Values Analysis</h3><div class=\"table-container\">" ++
      nullTable ++ "</div>" ++ suggHtml

/-- Half-to-even rounding of a rational to an integer. -/
def roundHalfEven (x : ℚ) : ℤ :=
  let f := x.floor
  let frac := x - (f : ℚ)
  if frac < 1/2 then f
  else if 1/2 < frac then f + 1
  else if f % 2 = 0 then f else f + 1

/-- Python `f"{value:.2f}"` on an exact rational (modulo binary-float
artifacts, which the embedding abstracts away). -/
def fmt2f (x : ℚ) : String :=
  let n := roundHalfEven (x * 100)
  let sign := if n < 0 then "-" else ""
  let a := n.natAbs
  sign ++ toString (a / 100) ++ "." ++ padZero 2 (a % 100)

/-- The display text of one statistic value.  Floats are formatted `:.2f`
(NaN prints as `nan`); the exact decimal expansion of a sample standard
deviation `√v` is not representable here and is displayed symbolically. -/
def StatVal.render : StatVal → String
  | .num x => fmt2f x
  | .sqrtOf v => "sqrt(" ++ toString v ++ ")"
  | .str v => v
  | .nan => "nan"

/-- `generate_statistics_section`: a table per column.  (`if value is not
None` keeps every row — NaN is not `None` — so inapplicable statistics are
rendered as `nan`.) -/
def generate_statistics_section (ar : Option NumSummary) : String :=
  match ar with
  | none => "<p>No statistical analysis available.</p>"
  | some [] => "<p>No statistical analysis available.</p>"
  | some results =>
    String.join (results.map fun colStats =>
      if colStats.2.isEmpty then ""
      else
        "<h3>" ++ colStats.1 ++ "</h3>" ++
          "<div class='table-container'><table><thead><tr><th>Metric</th><th>Value</th></tr></thead><tbody>" ++
          String.join (colStats.2.map fun mv =>
            "<tr><td>" ++ pyTitle mv.1 ++ "</td><td>" ++ mv.2.render ++ "</td></tr>") ++
          "</tbody></table></div>")

/-- Minimal JSON string escaping (backslash and quote), as `json.dumps`
applies to the embedded raw-data section. -/
def jsonEscape (s : String) : String :=
  ⟨s.data.foldr (fun c acc =>
    if c = '\\' then '\\' :: '\\' :: acc
    else if c = '"' then '\\' :: '"' :: acc
    else c :: acc) []⟩

def jsonStr (s : String) : String := "\"" ++ jsonEscape s ++ "\""

def jsonOfStatVal : StatVal → String
  | .num x => toString x
  | .sqrtOf v => "sqrt(" ++ toString v ++ ")"
  | .str v => jsonStr v
  | .nan => "NaN"

def jsonOfStrList (l : List String) : String :=
  "[" ++ String.intercalate ", " (l.map jsonStr) ++ "]"

def jsonOpt (f : α → String) : Option α → String
  | none => "null"
  | some a => f a

/-- `json.dumps(insights, indent=2)` for the Technical Details section,
rendered without the `indent=2` whitespace (all data is present; only the
pretty-printing is abstracted). -/
def jsonOfInsights (i : Insights) : String :=
  "\x7b" ++ jsonStr "framework" ++ ": " ++ jsonStr i.framework ++
    ", " ++ jsonStr "pipeline_execution" ++ ": " ++ jsonStr i.pipeline_execution ++
    ", " ++ jsonStr "data_info" ++ ": \x7b" ++
      jsonStr "filename" ++ ": " ++ jsonOpt jsonStr i.data_info.filename ++
      ", " ++ jsonStr "rows" ++ ": " ++ jsonOpt toString i.data_info.rows ++
      ", " ++ jsonStr "columns" ++ ": " ++ jsonOpt toString i.data_info.columns ++
      ", " ++ jsonStr "column_names" ++ ": " ++
        jsonOpt jsonOfStrList i.data_info.column_names ++ "\x7d" ++
    ", " ++ jsonStr "cleaning_info" ++ ": \x7b" ++
      jsonStr "null_summary" ++ ": " ++
        jsonOpt (fun ns => "\x7b" ++ String.intercalate ", "
          (ns.map fun nc => jsonStr nc.1 ++ ": " ++ toString nc.2) ++ "\x7d")
          i.cleaning_info.null_summary ++
      ", " ++ jsonStr "suggestions" ++ ": " ++
        jsonOpt jsonOfStrList i.cleaning_info.suggestions ++ "\x7d" ++
    ", " ++ jsonStr "analysis_results" ++ ": " ++
      jsonOpt (fun ar => "\x7b" ++ String.intercalate ", "
        (ar.map fun cs => jsonStr cs.1 ++ ": \x7b" ++ String.intercalate ", "
          (cs.2.map fun mv => jsonStr mv.1 ++ ": " ++ jsonOfStatVal mv.2) ++ "\x7d") ++
        "\x7d") i.analysis_results ++
    ", " ++ jsonStr "file_processed" ++ ": " ++ jsonStr i.file_processed ++ "\x7d"

/-- Static opening markup of the report template up to the `<title>` text
(DOCTYPE, head, the full CSS `<style>` block and the header banner are static
template text with no data in them; they are abbreviated here to their
delimiting tags). -/
def htmlDocOpen : String :=
  "<!DOCTYPE html><html lang=\"en\"><head><meta charset=\"UTF-8\"><title>InsightMesh Analysis Report - "

def htmlAfterTitle : String :=
  "</title><style>(static stylesheet)</style></head><body><div class=\"container\"><div class=\"header\"><h1>InsightMesh Analysis Report</h1><div class=\"subtitle\">Powered by Google Agentic ADK Framework</div><div class=\"timestamp\">Generated on "

/-- `generate_html_report(analysis_data, filename)` (lines 7–260): returns
`(html_content, report_id)`.  The source calls `datetime.now()` twice (once
for the report-id timestamp, once for the "Generated on" line); both reads
are modelled by the single instant `now`. -/
def generate_html_report (ad : AnalysisData) (filename : String) (now : DateTime6) :
    String × String :=
  let timestamp := strftimeCompact now
  let report_id := pyReplace filename ".csv" "" ++ "_" ++ timestamp
  let insights := ad.insights
  let data_info := insights.data_info
  let columnNames := data_info.column_names.getD []
  let completedCount :=
    (ad.processing_steps.filter (fun s => s.status = "completed")).length
  let html :=
    htmlDocOpen ++ filename ++ htmlAfterTitle ++ strftimeLong now ++
    "</div></div><div class=\"content\">" ++
    "<div class=\"section\"><h2>Executive Summary</h2><div class=\"summary-box\"><h3>Key Insights</h3><div class=\"summary-text\">" ++
    format_summary_text ad.summary ++
    "</div></div></div>" ++
    "<div class=\"section\"><h2>Data Overview</h2><div class=\"stats-grid\">" ++
    "<div class=\"stat-card\"><div class=\"stat-value\">" ++
      jsonOpt toString data_info.rows ++
    "</div><div class=\"stat-label\">Total Rows</div></div>" ++
    "<div class=\"stat-card\"><div class=\"stat-value\">" ++
      jsonOpt toString data_info.columns ++
    "</div><div class=\"stat-label\">Total Columns</div></div>" ++
    "<div class=\"stat-card\"><div class=\"stat-value\">" ++
      toString columnNames.length ++
    "</div><div class=\"stat-label\">Data Fields</div></div>" ++
    "<div class=\"stat-card\"><div class=\"stat-value\">" ++
      toString completedCount ++
    "</div><div class=\"stat-label\">Completed Steps</div></div></div>" ++
    "<div class=\"highlight\"><strong>File:</strong> " ++ filename ++
    "<br><strong>Columns:</strong> " ++ String.intercalate ", " columnNames ++
    "</div></div>" ++
    "<div class=\"section\"><h2>Processing Pipeline</h2><div class=\"table-container\"><table><thead><tr><th>Step</th><th>Agent</th><th>Description</th><th>Status</th><th>Key Output</th></tr></thead><tbody>" ++
    generate_processing_table ad.processing_steps ++
    "</tbody></table></div></div>" ++
    "<div class=\"section\"><h2>Data Quality Analysis</h2>" ++
    generate_cleaning_section insights.cleaning_info ++
    "</div>" ++
    "<div class=\"section\"><h2>Statistical Analysis</h2>" ++
    generate_statistics_section insights.analysis_results ++
    "</div>" ++
    "<div class=\"section\"><h2>Technical Details</h2><details><pre>" ++
    jsonOfInsights insights ++
    "</pre></details></div></div>" ++
    "<div class=\"footer\"><p><strong>InsightMesh</strong> - AI-Powered Data Analysis Platform</p><p>Report ID: " ++
    report_id ++
    "</p><div class=\"timestamp\">Powered by Google Agentic ADK Framework</div></div></div></body></html>"
  (html, report_id)

/-! ### The report store (`save_html_report` + the `/reports` endpoints)

The `output/` directory is modelled as a list of `(file name, content)`
pairs with unique file names (one file per path).  Directory/file-system
failure is injected by the handler's `saveOk` flag.
-/

abbrev ReportStore := List (String × String)

def ReportStore.getFile (store : ReportStore) (fname : String) : Option String :=
  (store.find? (fun e => e.1 == fname)).map (·.2)

/-- `save_html_report(html_content, report_id)`: write (or overwrite)
`output/{report_id}.html`; returns the new directory contents and the path. -/
def save_html_report (store : ReportStore) (html_content : String)
    (report_id : String) : ReportStore × String :=
  let fname := report_id ++ ".html"
  ((fname, html_content) :: store.filter (fun e => !(e.1 == fname)),
   "output/" ++ fname)

/-- `GET /reports/{report_id}` (`view_report`): read
`output/{report_id}.html`, 404 when the file does not exist. -/
def view_report (store : ReportStore) (report_id : String) :
    Except (Nat × String) String :=
  match store.getFile (report_id ++ ".html") with
  | some content => .ok content
  | none => .error (404, "Report '" ++ report_id ++ "' not found")

/-- `DELETE /reports/{report_id}` (`delete_report`): 404 when the file does
not exist, otherwise remove it. -/
def delete_report (store : ReportStore) (report_id : String) :
    Except (Nat × String) (ReportStore × String) :=
  let fname := report_id ++ ".html"
  match store.getFile fname with
  | some _ =>
    .ok (store.filter (fun e => !(e.1 == fname)),
         "Report '" ++ report_id ++ "' deleted successfully")
  | none => .error (404, "Report '" ++ report_id ++ "' not found")

/-- One entry of the `GET /reports` response. -/
structure ReportEntry where
  report_id : String
  filename : String
  view_url : String
deriving DecidableEq, Repr

/-- `GET /reports` (`list_reports`): glob `output/*.html`, derive each id by
`filename.replace('.html', '')` (removing every occurrence).  The
most-recently-modified-first sort is abstracted (file mtimes are not
modelled); only membership matters to the properties below. -/
def list_reports (store : ReportStore) : List ReportEntry :=
  (store.filter (fun e => pyEndsWith e.1 ".html")).map fun e =>
    let rid := pyReplace e.1 ".html" ""
    { report_id := rid, filename := e.1, view_url := "/reports/" ++ rid }

/-! ### The `/analyze` handler (`analyze_csv_data`, `main.py` lines 92–303) -/

/-- The FastAPI response model of `/analyze`. -/
structure AnalysisResponse where
  success : Bool
  message : String
  insights : Option Insights
  summary : Option String
  processing_steps : Option (List StageResult)
deriving DecidableEq, Repr

/-- What the caller receives: either the response model or an
`HTTPException` (status code, detail). -/
inductive HandlerResult where
  | response (r : AnalysisResponse)
  | httpError (statusCode : Nat) (detail : String)
deriving DecidableEq, Repr

/-- Observable outcome of one `/analyze` request: the result, the report
directory after the request, and the temp-file resource facts. -/
structure HandlerOutcome where
  result : HandlerResult
  store : ReportStore
  tempFileCreated : Bool
  tempFileDeleted : Bool
deriving DecidableEq, Repr

/-- Starlette's `HTTPException.__str__`: `f"{status_code}: {detail}"` — the
text used when a caught `HTTPException` is interpolated into an f-string. -/
def httpExceptionStr (statusCode : Nat) (detail : String) : String :=
  toString statusCode ++ ": " ++ detail

/-- `analyze_csv_data` end to end.  `genOk` / `saveOk` inject a raised
exception in `generate_html_report` / `save_html_report` (the two calls the
source wraps in `try/except` at lines 268–280); `now` is the clock.
`unboundLocalMsg` is the text of the `UnboundLocalError` CPython raises when
the response f-string at line 287 reads the never-assigned local
`report_id` — the wording differs across Python versions (≤3.10:
"local variable 'report_id' referenced before assignment"; 3.11+:
"cannot access local variable 'report_id' where it is not associated with a
value"), so the model takes it as a parameter and no property depends on it. -/
def analyze_csv_data (filename : String)
    (ingestF : String → Except String IngestOut)
    (cleanF : DataFrame → Except String CleanOut)
    (analyzeF : DataFrame → Except String NumSummary)
    (summarizeF : NumSummary → NullSummary → Except String SummOut)
    (genOk saveOk : Bool) (unboundLocalMsg : String) (now : DateTime6)
    (tempFilePath : String) (store : ReportStore) : HandlerOutcome :=
  if ¬ pyEndsWith filename ".csv" then
    -- 400 before the temporary file is even created
    { result := .httpError 400 "Only CSV files are supported"
      store := store, tempFileCreated := false, tempFileDeleted := false }
  else
    match runPipeline ingestF cleanF analyzeF summarizeF tempFilePath with
    | .fatal _ detail =>
      -- the HTTPException(500, detail) raised at line 145 is caught by the
      -- inner `except Exception as e` at line 257 (HTTPException subclasses
      -- Exception) and rewrapped at line 259 as
      -- HTTPException(500, f"Google ADK pipeline failed: {e}") with
      -- str(e) = "500: {detail}"; the rewrapped exception is then re-raised
      -- unchanged by `except HTTPException: raise` (line 293) — no
      -- `os.unlink` is ever reached on this path
      { result := .httpError 500
          ("Google ADK pipeline failed: " ++ httpExceptionStr 500 detail)
        store := store, tempFileCreated := true, tempFileDeleted := false }
    | .done steps state =>
      let final_summary :=
        state.summary_text.getD "Analysis completed using Google ADK agents"
      let insights : Insights :=
        { data_info :=
            { filename := state.filename, rows := state.num_rows
              columns := state.num_columns, column_names := state.column_names }
          cleaning_info :=
            { null_summary := state.null_summary, suggestions := state.suggestions }
          analysis_results := state.numeric_summary
          file_processed := tempFilePath }
      let ad : AnalysisData :=
        { insights := insights, summary := final_summary, processing_steps := steps }
      if genOk then
        let (html, report_id) := generate_html_report ad filename now
        let (store', insights') :=
          if saveOk then
            let (st, path) := save_html_report store html report_id
            let info : HtmlReportInfo :=
              { report_id := report_id, report_path := path
                report_url := "/reports/" ++ report_id }
            (st, { insights with html_report := some info })
          else
            -- save raised: caught at line 279, logged as a warning, continue
            (store, insights)
        -- line 283: os.unlink(temp_file_path); lines 285–291: the response
        { result := .response
            { success := true
              message := "Successfully analyzed " ++ filename ++
                " using Google ADK agents. HTML report available at /reports/" ++
                report_id
              insights := some insights'
              summary := some final_summary
              processing_steps := some steps }
          store := store', tempFileCreated := true, tempFileDeleted := true }
      else
        -- generate_html_report raised: caught at line 279 and logged; the
        -- temp file is unlinked at line 283; but the response f-string at
        -- line 287 reads the local `report_id`, which was never assigned —
        -- UnboundLocalError (version-dependent wording `unboundLocalMsg`),
        -- caught by the generic handler at line 295 →
        -- HTTPException(500, f"Analysis failed: {str(e)}").
        { result := .httpError 500 ("Analysis failed: " ++ unboundLocalMsg)
          store := store, tempFileCreated := true, tempFileDeleted := true }

/-! ### Specification-side definitions and shared fixtures -/

/-- Spec-side reading of the report-id rule: the filename with **every**
occurrence of the substring `.csv` removed, all other characters kept
verbatim, scanning left to right. -/
def stripEveryCsv (l : List Char) : List Char :=
  go l.length l
where
  go : Nat → List Char → List Char
    | _, [] => []
    | 0, s => s
    | fuel + 1, c :: cs =>
      if matchesAt ['.', 'c', 's', 'v'] (c :: cs) then go fuel (cs.drop 3)
      else c :: go fuel cs

/-- A dataset with one numeric and one non-numeric column, three rows,
no missing values (`id,name` = `1,a` / `2,b` / `3,c`). -/
def dfMixed : DataFrame :=
  { cols := [.numeric "id" [some 1, some 2, some 3],
             .object "name" [some "a", some "b", some "c"]] }

/-- The spec's example dataset (`id,amount` = `1,10` / `2,` / `3,30`). -/
def dfAmount : DataFrame :=
  { cols := [.numeric "id" [some 1, some 2, some 3],
             .numeric "amount" [some 10, none, some 30]] }

/-- A `pd.read_csv` collaborator that parses every path to `df`. -/
def readOk (df : DataFrame) : String → Except String DataFrame := fun _ => .ok df

/-- The cleaner stage function as `main.py` wires it (the real tool raises
no exception of its own). -/
def realCleanF : DataFrame → Except String CleanOut := fun df => .ok (cleaning_tool df)

/-- The summarizer stage function as `main.py` wires it (the tool catches the
LLM failure internally, so the stage function itself does not raise). -/
def realSummarizeF (llm : String → Option String) (pdToString : NumSummary → String) :
    NumSummary → NullSummary → Except String SummOut :=
  fun ns cl => .ok (summarizer_tool llm pdToString ns cl)

/-- An LLM collaborator whose every call raises. -/
def llmDown : String → Option String := fun _ => none

/-- A fixed clock instant and a second, later one. -/
def t₁ : DateTime6 := ⟨2025, 10, 12, 15, 30, 45⟩
def t₂ : DateTime6 := ⟨2025, 10, 12, 15, 30, 46⟩

/-- A minimal `analysis_data` value for exercising the report generator. -/
def adEmpty : AnalysisData :=
  { insights :=
      { data_info := { filename := none, rows := none, columns := none
                       column_names := none }
        cleaning_info := { null_summary := none, suggestions := none }
        analysis_results := none
        file_processed := "/tmp/upload.csv" }
    summary := ""
    processing_steps := [] }

def PipelineOutcome.state? : PipelineOutcome → Option SharedState
  | .fatal _ _ => none
  | .done _ s => some s

/-- Is the handler result a success-flagged response body? -/
def HandlerResult.isSuccess : HandlerResult → Bool
  | .response r => r.success
  | .httpError _ _ => false

/-- The `processing_steps` of a response result, if any. -/
def HandlerResult.stepsOf : HandlerResult → Option (List StageResult)
  | .response r => r.processing_steps
  | .httpError _ _ => none

/-- The HTTP error status code of the result, if it is an error. -/
def HandlerResult.statusCode? : HandlerResult → Option Nat
  | .response _ => none
  | .httpError c _ => some c

/-- One concrete wording of the line-287 `UnboundLocalError` (CPython ≤3.10),
used only to fill the version-dependent `unboundLocalMsg` slot in closed
statements; no conclusion depends on it. -/
def ubloMsg310 : String := "local variable 'report_id' referenced before assignment"

/-- The failed-stage record the runner appends when the ingestor raises `e`. -/
def ingestorFailedStep (e : String) : StageResult :=
  { step := "ingestor", agent := "ingestor", description := ingestorDescription
    status := "failed", output := none, error := some e }

/-- The failed-stage record the runner appends when the cleaner raises `e`. -/
def cleanerFailedStep (e : String) : StageResult :=
  { step := "cleaner", agent := "cleaner", description := cleanerDescription
    status := "failed", output := none, error := some e }

/-- The failed-stage record the runner appends when the analyzer raises `e`. -/
def analyzerFailedStep (e : String) : StageResult :=
  { step := "analyzer", agent := "analyzer", description := analyzerDescription
    status := "failed", output := none, error := some e }

/-- The failed-stage record the runner appends when the summarizer raises
`e` — also used for the missing-precondition raise at line 225. -/
def summarizerFailedStep (e : String) : StageResult :=
  { step := "summarizer", agent := "summarizer", description := summarizerDescription
    status := "failed", output := none, error := some e }

/-- The `null_summary` present in the shared state after the cleaner stage,
as a function of the cleaner stage function's outcome. -/
def nullsAfter : Except String CleanOut → NullSummary
  | .ok co => co.null_summary
  | .error _ => []

/-- The store after `save` then `delete` of the same id. -/
def storeAfterDelete (store : ReportStore) (html report_id : String) : ReportStore :=
  (save_html_report store html report_id).1.filter
    (fun e => !(e.1 == report_id ++ ".html"))

deriving instance DecidableEq for Except

/-- The two scans agree step by step: Python `filename.replace('.csv', '')`
is exactly "remove every occurrence of `.csv`" at every sufficient fuel. -/
theorem pyReplaceAux_csv_eq_strip (fuel fuel' : Nat) (l : List Char)
    (h : l.length ≤ fuel) (h' : l.length ≤ fuel') :
    pyReplaceAux '.' ['c', 's', 'v'] [] fuel l = stripEveryCsv.go fuel' l := by
  induction fuel generalizing fuel' l with
  | zero =>
    cases l with
    | nil => cases fuel' <;> rfl
    | cons c cs => simp at h
  | succ n ih =>
    cases l with
    | nil => cases fuel' <;> rfl
    | cons c cs =>
      cases fuel' with
      | zero => simp at h'
      | succ m =>
        rw [pyReplaceAux, stripEveryCsv.go]
        by_cases hm : matchesAt ['.', 'c', 's', 'v'] (c :: cs) = true
        · simp only [hm, if_true, List.nil_append]
          have hlen : (cs.drop 3).length ≤ n := by
            simp at h ⊢; omega
          exact ih _ _ hlen (by simp at h' ⊢; omega)
        · simp only [eq_false_of_ne_true hm, if_neg, Bool.false_eq_true,
            not_false_eq_true]
          rw [ih m cs (by simp at h ⊢; omega) (by simp at h' ⊢; omega)]

/-- Python `filename.replace('.csv', '')` removes every occurrence. -/
theorem pyReplace_csv_eq_strip (filename : String) :
    pyReplace filename ".csv" "" = String.mk (stripEveryCsv filename.data) := by
  show String.mk (pyReplaceAux '.' ['c', 's', 'v'] [] filename.data.length filename.data) = _
  rw [stripEveryCsv, pyReplaceAux_csv_eq_strip _ _ _ le_rfl le_rfl]


/-! ### Claim C10 — the report-id formula -/

/-- Claim C10 (confirmed): for every uploaded filename, the generated
`report_id` is the filename with every occurrence of the substring `.csv`
removed (not only a trailing extension) — all other characters, path
separators included, kept verbatim — followed by `_` and the
`%Y%m%d_%H%M%S` timestamp; and the saved report file's path embeds the id
verbatim as `output/{report_id}.html`. -/
theorem C10_report_id_formula (ad : AnalysisData) (filename : String)
    (now : DateTime6) (store : ReportStore) (html : String) :
    (generate_html_report ad filename now).2 =
      String.mk (stripEveryCsv filename.data) ++ "_" ++ strftimeCompact now ∧
    (save_html_report store html (generate_html_report ad filename now).2).2 =
      "output/" ++ ((generate_html_report ad filename now).2 ++ ".html") := by
  have hid : (generate_html_report ad filename now).2 =
      String.mk (stripEveryCsv filename.data) ++ "_" ++ strftimeCompact now := by
    show pyReplace filename ".csv" "" ++ "_" ++ strftimeCompact now = _
    rw [pyReplace_csv_eq_strip]
  exact ⟨hid, rfl⟩

/-! ### Claim C8 — determinism of report synthesis -/

/-- Claim C8 (counterexample): report synthesis is **not** a function of
`(Context contents, stage results, source filename)` alone — two invocations
of `generate_html_report` on identical inputs at clock instants one second
apart produce different documents (the report id and the rendered body both
embed the current time). -/
theorem C8_counterexample :
    generate_html_report adEmpty "data.csv" t₁ ≠ generate_html_report adEmpty "data.csv" t₂ :=
  fun h => absurd (congrArg Prod.snd h) (by decide)

/-- Claim C8 (corrected): report synthesis is deterministic in its inputs
*plus the clock instant read by `datetime.now()`* — any two invocations with
the same analysis data, filename and clock reading produce identical
`(html, report_id)` documents, and synthesis performs no other I/O or
external call. -/
theorem C8_deterministic_given_clock (ad ad' : AnalysisData) (f f' : String)
    (t t' : DateTime6) (h1 : ad = ad') (h2 : f = f') (h3 : t = t') :
    generate_html_report ad f t = generate_html_report ad' f' t' := by
  subst h1; subst h2; subst h3; rfl

/-- Witness for C8: the determinism theorem applied at a concrete input. -/
theorem C8_deterministic_given_clock_witness :
    adEmpty = adEmpty ∧
      generate_html_report adEmpty "data.csv" t₁ = generate_html_report adEmpty "data.csv" t₁ :=
  ⟨rfl, C8_deterministic_given_clock adEmpty adEmpty "data.csv" "data.csv" t₁ t₁ rfl rfl rfl⟩

/-! ### Claim C9 — report store lifecycle -/

/-- After filtering out every pair keyed `fname`, `find?` for `fname` is
`none`. -/
theorem find?_filter_bne (l : ReportStore) (fname : String) :
    (l.filter (fun e => !(e.1 == fname))).find? (fun e => e.1 == fname) = none := by
  rw [List.find?_eq_none]
  intro x hx
  have hmem := (List.mem_filter.mp hx).2
  simp at hmem ⊢
  exact hmem

/-- `getFile` never finds a name that was filtered out. -/
theorem getFile_filter_bne (l : ReportStore) (fname : String) :
    ReportStore.getFile (l.filter (fun e => !(e.1 == fname))) fname = none := by
  unfold ReportStore.getFile
  rw [find?_filter_bne]
  rfl

/-- Claim C9 (corrected): `save` then `get` returns exactly the saved
content; after `delete`, `get` and a second `delete` both fail with 404; and
a subsequent `list` omits the deleted id *provided no other surviving report
file's name, with every `.html` occurrence removed, coincides with it* (ids
are listed by `filename.replace('.html', '')`, so another file can shadow a
deleted id). -/
theorem C9_report_lifecycle (store : ReportStore) (report_id html : String) :
    view_report (save_html_report store html report_id).1 report_id = .ok html ∧
    delete_report (save_html_report store html report_id).1 report_id =
      .ok (storeAfterDelete store html report_id,
           "Report '" ++ report_id ++ "' deleted successfully") ∧
    view_report (storeAfterDelete store html report_id) report_id =
      .error (404, "Report '" ++ report_id ++ "' not found") ∧
    delete_report (storeAfterDelete store html report_id) report_id =
      .error (404, "Report '" ++ report_id ++ "' not found") ∧
    ((∀ p ∈ storeAfterDelete store html report_id,
        pyReplace p.1 ".html" "" ≠ report_id) →
      ∀ entry ∈ list_reports (storeAfterDelete store html report_id),
        entry.report_id ≠ report_id) := by
  refine ⟨?_, ?_, ?_, ?_, ?_⟩
  · simp [view_report, save_html_report, ReportStore.getFile, List.find?]
  · simp [delete_report, save_html_report, ReportStore.getFile, List.find?,
      storeAfterDelete]
  · simp only [storeAfterDelete, view_report, getFile_filter_bne]
  · simp only [storeAfterDelete, delete_report, getFile_filter_bne]
  · intro hno entry hmem
    rcases List.mem_map.mp hmem with ⟨p, hp, hpe⟩
    have hstrip := hno p (List.mem_filter.mp hp).1
    intro hcontra
    exact hstrip (by rw [← hpe] at hcontra; exact hcontra)

/-- Witness for C9 at a concrete store, id and content. -/
theorem C9_report_lifecycle_witness :
    view_report (save_html_report [] "<html>r</html>" "r_20250101_120000").1
        "r_20250101_120000" = .ok "<html>r</html>" ∧
    (∀ p ∈ storeAfterDelete [] "<html>r</html>" "r_20250101_120000",
        pyReplace p.1 ".html" "" ≠ "r_20250101_120000") :=
  ⟨(C9_report_lifecycle [] "r_20250101_120000" "<html>r</html>").1, by decide⟩

/-- Claim C9 (counterexample): the "list never includes a deleted id" clause
fails.  Save a report for `r.csv` (id `r_20250101_120000`) and one for
`r.html.csv` (id `r.html_20250101_120000`, as the id generator produces for
that filename), then delete the first.  `GET /reports/r_20250101_120000` is
404, yet the listing still contains report_id `r_20250101_120000`, derived
from the *other* surviving file `r.html_20250101_120000.html` by stripping
every `.html` occurrence. -/
theorem C9_counterexample :
    delete_report
        (save_html_report
          (save_html_report [] "<html>A</html>" "r_20250101_120000").1
          "<html>B</html>" "r.html_20250101_120000").1
        "r_20250101_120000" =
      .ok ([("r.html_20250101_120000.html", "<html>B</html>")],
           "Report 'r_20250101_120000' deleted successfully") ∧
    view_report [("r.html_20250101_120000.html", "<html>B</html>")]
        "r_20250101_120000" =
      .error (404, "Report 'r_20250101_120000' not found") ∧
    (list_reports [("r.html_20250101_120000.html", "<html>B</html>")]).map
        ReportEntry.report_id = ["r_20250101_120000"] := by decide

/-! ### Claim C1 — missing-precondition handling of non-ingest stages -/

/-- Claim C1 (counterexample): run the pipeline on a well-formed mixed
dataset with an analyzer that raises.  The summarizer's required Context key
(`numeric_summary`) is then absent, the tool function is not invoked — yet
the recorded `StageResult` has status `failed`, and no stage of the run is
ever recorded as `skipped`. -/
theorem C1_counterexample :
    (runPipeline (ingestion_tool (readOk dfMixed)) realCleanF
        (fun _ => .error "analyzer raised")
        (realSummarizeF llmDown (fun _ => "STATS")) "/tmp/upload.csv").steps.getLast? =
      some (summarizerFailedStep "No analysis results available for summarization") ∧
    ((runPipeline (ingestion_tool (readOk dfMixed)) realCleanF
        (fun _ => .error "analyzer raised")
        (realSummarizeF llmDown (fun _ => "STATS")) "/tmp/upload.csv").steps.all
      (fun s => s.status != "skipped")) = true := by decide

/-- Claim C1 (corrected): when a non-ingest stage's required Context keys
are absent — reachable only for the summarize stage, whose `numeric_summary`
precondition is missing exactly when the analyzer failed — the runner
records a `StageResult` with status `failed` (not `skipped`) whose error
message names the missing precondition, does not invoke the stage's
function (the outcome is independent of it), and continues to the end of
the pipeline (all four stage results are recorded). -/
theorem C1_missing_precondition_marks_failed
    (path : String) (df : DataFrame)
    (cleanF : DataFrame → Except String CleanOut)
    (analyzeF : DataFrame → Except String NumSummary)
    (sF sF' : NumSummary → NullSummary → Except String SummOut)
    (e : String) (h : analyzeF df = .error e) :
    (runPipeline (ingestion_tool (readOk df)) cleanF analyzeF sF path).steps.getLast? =
      some (summarizerFailedStep "No analysis results available for summarization") ∧
    (runPipeline (ingestion_tool (readOk df)) cleanF analyzeF sF path).steps.length = 4 ∧
    runPipeline (ingestion_tool (readOk df)) cleanF analyzeF sF path =
      runPipeline (ingestion_tool (readOk df)) cleanF analyzeF sF' path := by
  cases hc : cleanF df <;>
    simp [runPipeline, ingestion_tool, readOk, Except.map, hc, h,
      summarizerFailedStep, PipelineOutcome.steps, List.getLast?]

/-- Witness for C1 at a concrete failing analyzer. -/
theorem C1_missing_precondition_marks_failed_witness :
    ((fun _ : DataFrame => (Except.error "analyzer raised" : Except String NumSummary))
        dfMixed = .error "analyzer raised") ∧
    (runPipeline (ingestion_tool (readOk dfMixed)) realCleanF
        (fun _ => .error "analyzer raised")
        (realSummarizeF llmDown (fun _ => "SS")) "/tmp/u.csv").steps.length = 4 :=
  ⟨rfl,
   (C1_missing_precondition_marks_failed "/tmp/u.csv" dfMixed realCleanF
      (fun _ => .error "analyzer raised") (realSummarizeF llmDown (fun _ => "SS"))
      (realSummarizeF llmDown (fun _ => "SS")) "analyzer raised" rfl).2.1⟩

/-! ### Claim C4 — ingest failure is fatal -/

/-- Claim C4 (confirmed): whenever `pd.read_csv` raises, the run aborts with
an error status: the `HTTPException(500, "Data ingestion failed: …")` raised
at line 145 is caught by the inner `except Exception` (line 257) and
surfaced to the caller rewrapped as
`HTTPException(500, "Google ADK pipeline failed: 500: Data ingestion
failed: …")`; no later stage runs (the outcome does not depend on the
cleaner/analyzer/summarizer functions, and the recorded steps are the single
failed ingestor entry), and the report store is left unchanged — no new
report is created. -/
theorem C4_ingest_failure_fatal
    (filename tempPath e msg : String) (readCsv : String → Except String DataFrame)
    (cleanF cleanF' : DataFrame → Except String CleanOut)
    (analyzeF analyzeF' : DataFrame → Except String NumSummary)
    (sF sF' : NumSummary → NullSummary → Except String SummOut)
    (genOk saveOk : Bool) (now : DateTime6) (store : ReportStore)
    (hcsv : pyEndsWith filename ".csv" = true)
    (hread : readCsv tempPath = .error e) :
    (analyze_csv_data filename (ingestion_tool readCsv) cleanF analyzeF sF
        genOk saveOk msg now tempPath store).result =
      .httpError 500
        ("Google ADK pipeline failed: " ++
          httpExceptionStr 500 ("Data ingestion failed: " ++ e)) ∧
    (analyze_csv_data filename (ingestion_tool readCsv) cleanF analyzeF sF
        genOk saveOk msg now tempPath store).store = store ∧
    analyze_csv_data filename (ingestion_tool readCsv) cleanF analyzeF sF
        genOk saveOk msg now tempPath store =
      analyze_csv_data filename (ingestion_tool readCsv) cleanF' analyzeF' sF'
        genOk saveOk msg now tempPath store ∧
    (runPipeline (ingestion_tool readCsv) cleanF analyzeF sF tempPath).steps =
      [ingestorFailedStep e] := by
  simp [analyze_csv_data, runPipeline, ingestion_tool, Except.map, hcsv, hread,
    PipelineOutcome.steps, ingestorFailedStep]

/-- Witness for C4 at a concrete unparseable upload. -/
theorem C4_ingest_failure_fatal_witness :
    (pyEndsWith "data.csv" ".csv" = true ∧
      (fun _ : String =>
        (Except.error "No columns to parse from file" : Except String DataFrame))
        "/tmp/u.csv" = .error "No columns to parse from file") ∧
    (analyze_csv_data "data.csv"
        (ingestion_tool (fun _ => .error "No columns to parse from file"))
        realCleanF analysis_tool (realSummarizeF llmDown (fun _ => "S"))
        true true ubloMsg310 t₁ "/tmp/u.csv" []).result =
      .httpError 500
        ("Google ADK pipeline failed: " ++
          httpExceptionStr 500
            ("Data ingestion failed: " ++ "No columns to parse from file")) :=
  ⟨⟨by decide, rfl⟩,
   (C4_ingest_failure_fatal "data.csv" "/tmp/u.csv" "No columns to parse from file"
      ubloMsg310
      (fun _ => .error "No columns to parse from file") realCleanF realCleanF
      analysis_tool analysis_tool (realSummarizeF llmDown (fun _ => "S"))
      (realSummarizeF llmDown (fun _ => "S")) true true t₁ []
      (by decide) rfl).1⟩

/-! ### Claim C7 — temp-file cleanup on every exit path -/

/-- Claim C7 (refuted by the code, supporting the code-bug report): on the
ingest-failure exit path the ingest `HTTPException` — rewrapped at lines
257–259 — is re-raised through `except HTTPException: raise` without ever
reaching an `os.unlink`, so the temporary uploaded file is created but never
deleted — contradicting the guarantee that every exit path deletes it. -/
theorem C7_temp_file_leak_on_ingest_failure
    (filename tempPath e msg : String) (readCsv : String → Except String DataFrame)
    (cleanF : DataFrame → Except String CleanOut)
    (analyzeF : DataFrame → Except String NumSummary)
    (sF : NumSummary → NullSummary → Except String SummOut)
    (genOk saveOk : Bool) (now : DateTime6) (store : ReportStore)
    (hcsv : pyEndsWith filename ".csv" = true)
    (hread : readCsv tempPath = .error e) :
    (analyze_csv_data filename (ingestion_tool readCsv) cleanF analyzeF sF
        genOk saveOk msg now tempPath store).tempFileCreated = true ∧
    (analyze_csv_data filename (ingestion_tool readCsv) cleanF analyzeF sF
        genOk saveOk msg now tempPath store).tempFileDeleted = false := by
  simp [analyze_csv_data, runPipeline, ingestion_tool, Except.map, hcsv, hread]

/-- Witness for C7: an uploaded `.csv` file whose content pandas cannot
parse leaks its temp file. -/
theorem C7_temp_file_leak_witness :
    (pyEndsWith "data.csv" ".csv" = true ∧
      (fun _ : String =>
        (Except.error "No columns to parse from file" : Except String DataFrame))
        "/tmp/u.csv" = .error "No columns to parse from file") ∧
    (analyze_csv_data "data.csv"
        (ingestion_tool (fun _ => .error "No columns to parse from file"))
        realCleanF analysis_tool (realSummarizeF llmDown (fun _ => "S"))
        true true ubloMsg310 t₁ "/tmp/u.csv" []).tempFileDeleted = false :=
  ⟨⟨by decide, rfl⟩,
   (C7_temp_file_leak_on_ingest_failure "data.csv" "/tmp/u.csv"
      "No columns to parse from file" ubloMsg310
      (fun _ => .error "No columns to parse from file") realCleanF
      analysis_tool (realSummarizeF llmDown (fun _ => "S"))
      true true t₁ [] (by decide) rfl).2⟩

/-! ### Claim C6 — report-store failure must not lose the response -/

/-- Claim C6 (divergence, supporting the code-bug report): when the
pipeline succeeds but `generate_html_report` raises, the handler's
`except`/warning block intends to continue — yet the response f-string then
reads the never-assigned local `report_id`, raising an `UnboundLocalError`
(whose wording `msg` varies with the Python version), so the run collapses
into `HTTPException(500, "Analysis failed: " + msg)` instead of returning
the computed response — for every possible wording.  By contrast, when only
`save_html_report` (persistence) fails, the response with `success`,
`summary` and `processing_steps` is still returned and the store is
untouched, as the claim demands. -/
theorem C6_generation_failure_turns_into_500
    (filename tempPath msg : String) (readCsv : String → Except String DataFrame)
    (df : DataFrame)
    (cleanF : DataFrame → Except String CleanOut)
    (analyzeF : DataFrame → Except String NumSummary)
    (sF : NumSummary → NullSummary → Except String SummOut)
    (saveOk : Bool) (now : DateTime6) (store : ReportStore)
    (hcsv : pyEndsWith filename ".csv" = true)
    (hread : readCsv tempPath = .ok df) :
    (analyze_csv_data filename (ingestion_tool readCsv) cleanF analyzeF sF
        false saveOk msg now tempPath store).result =
      .httpError 500 ("Analysis failed: " ++ msg) ∧
    (∀ r, (analyze_csv_data filename (ingestion_tool readCsv) cleanF analyzeF sF
        false saveOk msg now tempPath store).result ≠ .response r) ∧
    (analyze_csv_data filename (ingestion_tool readCsv) cleanF analyzeF sF
        false saveOk msg now tempPath store).store = store ∧
    ((analyze_csv_data filename (ingestion_tool readCsv) cleanF analyzeF sF
        true false msg now tempPath store).result).isSuccess = true ∧
    ((analyze_csv_data filename (ingestion_tool readCsv) cleanF analyzeF sF
        true false msg now tempPath store).result).stepsOf =
      some (runPipeline (ingestion_tool readCsv) cleanF analyzeF sF tempPath).steps ∧
    (analyze_csv_data filename (ingestion_tool readCsv) cleanF analyzeF sF
        true false msg now tempPath store).store = store := by
  refine ⟨?_, ?_, ?_, ?_, ?_, ?_⟩ <;>
    simp [analyze_csv_data, runPipeline, ingestion_tool, Except.map, hcsv, hread,
      HandlerResult.isSuccess, HandlerResult.stepsOf, PipelineOutcome.steps]

/-- Witness for C6 at a concrete run (the CPython ≤3.10 wording fills the
version-dependent message slot). -/
theorem C6_generation_failure_witness :
    (pyEndsWith "data.csv" ".csv" = true ∧
      readOk dfMixed "/tmp/u.csv" = .ok dfMixed) ∧
    (analyze_csv_data "data.csv" (ingestion_tool (readOk dfMixed)) realCleanF
        analysis_tool (realSummarizeF llmDown (fun _ => "S"))
        false true ubloMsg310 t₁ "/tmp/u.csv" []).result =
      .httpError 500 ("Analysis failed: " ++ ubloMsg310) :=
  ⟨⟨by decide, rfl⟩,
   (C6_generation_failure_turns_into_500 "data.csv" "/tmp/u.csv" ubloMsg310
      (readOk dfMixed) dfMixed realCleanF analysis_tool
      (realSummarizeF llmDown (fun _ => "S"))
      true t₁ [] (by decide) rfl).1⟩

/-! ### Claim C5 — per-stage failure tolerance after a successful ingest -/

/-- Claim C5 (counterexample): a run in which ingest succeeds but report
generation raises does *not* return a success response — the response
f-string's read of the never-assigned local `report_id` escalates to an
HTTP 500 — so "for every run in which ingest succeeds, `/analyze` returns
success: true" fails as universally stated.  (The version-dependent
`UnboundLocalError` wording fills a parameter slot; neither conclusion
depends on it.) -/
theorem C5_counterexample :
    ((analyze_csv_data "data.csv" (ingestion_tool (readOk dfMixed)) realCleanF
        analysis_tool (realSummarizeF llmDown (fun _ => "STATS"))
        false true ubloMsg310 t₁ "/tmp/u.csv" []).result).statusCode? =
      some 500 ∧
    ∀ r, (analyze_csv_data "data.csv" (ingestion_tool (readOk dfMixed)) realCleanF
        analysis_tool (realSummarizeF llmDown (fun _ => "STATS"))
        false true ubloMsg310 t₁ "/tmp/u.csv" []).result ≠ .response r := by
  have h1 : ((analyze_csv_data "data.csv" (ingestion_tool (readOk dfMixed)) realCleanF
      analysis_tool (realSummarizeF llmDown (fun _ => "STATS"))
      false true ubloMsg310 t₁ "/tmp/u.csv" []).result).statusCode? = some 500 := by
    decide
  refine ⟨h1, fun r hr => ?_⟩
  rw [hr] at h1
  exact Option.noConfusion h1

/-- Claim C5 (corrected): for every run in which ingest succeeds *and the
report-generation call does not raise*, `/analyze` returns a body with
`success: true` no matter which of the cleaner, analyzer and summarizer
stages fail; each such failure is caught at the runner boundary and recorded
in `processing_steps` with status `failed` and the raised message, and
execution continues (all four stage records are present and returned). -/
theorem C5_success_despite_stage_failures
    (filename tempPath msg : String) (readCsv : String → Except String DataFrame)
    (df : DataFrame)
    (cleanF : DataFrame → Except String CleanOut)
    (analyzeF : DataFrame → Except String NumSummary)
    (sF : NumSummary → NullSummary → Except String SummOut)
    (saveOk : Bool) (now : DateTime6) (store : ReportStore)
    (hcsv : pyEndsWith filename ".csv" = true)
    (hread : readCsv tempPath = .ok df) :
    ((analyze_csv_data filename (ingestion_tool readCsv) cleanF analyzeF sF
        true saveOk msg now tempPath store).result).isSuccess = true ∧
    ((analyze_csv_data filename (ingestion_tool readCsv) cleanF analyzeF sF
        true saveOk msg now tempPath store).result).stepsOf =
      some (runPipeline (ingestion_tool readCsv) cleanF analyzeF sF tempPath).steps ∧
    (runPipeline (ingestion_tool readCsv) cleanF analyzeF sF tempPath).steps.length = 4 ∧
    (∀ e, cleanF df = .error e →
      (runPipeline (ingestion_tool readCsv) cleanF analyzeF sF tempPath).steps[1]? =
        some (cleanerFailedStep e)) ∧
    (∀ e, analyzeF df = .error e →
      (runPipeline (ingestion_tool readCsv) cleanF analyzeF sF tempPath).steps[2]? =
        some (analyzerFailedStep e)) ∧
    (∀ ns e, analyzeF df = .ok ns → ns.isEmpty = false →
      sF ns (nullsAfter (cleanF df)) = .error e →
      (runPipeline (ingestion_tool readCsv) cleanF analyzeF sF tempPath).steps[3]? =
        some (summarizerFailedStep e)) := by
  refine ⟨?_, ?_, ?_, ?_, ?_, ?_⟩
  · simp [analyze_csv_data, runPipeline, ingestion_tool, Except.map, hcsv, hread,
      HandlerResult.isSuccess]
  · simp [analyze_csv_data, runPipeline, ingestion_tool, Except.map, hcsv, hread,
      HandlerResult.stepsOf, PipelineOutcome.steps]
  · simp [runPipeline, ingestion_tool, Except.map, hread, PipelineOutcome.steps]
  · intro e hc
    simp [runPipeline, ingestion_tool, Except.map, hread, hc,
      PipelineOutcome.steps, cleanerFailedStep]
  · intro e ha
    cases hcf : cleanF df <;>
      simp [runPipeline, ingestion_tool, Except.map, hread, ha, hcf,
        PipelineOutcome.steps, analyzerFailedStep]
  · intro ns e ha hne hs
    cases hcf : cleanF df <;> rw [hcf] at hs <;> simp [nullsAfter] at hs <;>
      simp [runPipeline, ingestion_tool, Except.map, hread, ha, hcf, hne, hs,
        PipelineOutcome.steps, summarizerFailedStep]

/-- Witness for C5: a run whose cleaner, analyzer and summarizer all raise
still yields a success response. -/
theorem C5_success_despite_stage_failures_witness :
    (pyEndsWith "data.csv" ".csv" = true ∧
      readOk dfMixed "/tmp/u.csv" = .ok dfMixed) ∧
    ((analyze_csv_data "data.csv" (ingestion_tool (readOk dfMixed))
        (fun _ => .error "cleaner raised") (fun _ => .error "analyzer raised")
        (fun _ _ => .error "summarizer raised")
        true true ubloMsg310 t₁ "/tmp/u.csv" []).result).isSuccess = true :=
  ⟨⟨by decide, rfl⟩,
   (C5_success_despite_stage_failures "data.csv" "/tmp/u.csv" ubloMsg310
      (readOk dfMixed)
      dfMixed (fun _ => .error "cleaner raised") (fun _ => .error "analyzer raised")
      (fun _ _ => .error "summarizer raised") true t₁ [] (by decide) rfl).1⟩

/-! ### Claim C2 — what the analyze stage actually writes -/

/-- The statistics a numeric column's `describe` entry exposes under each
key, for either value of the object-padding flag. -/
theorem lookup_numericEntry (hasObj : Bool) (cells : List (Option ℚ)) :
    (numericEntry hasObj cells).lookup "count" =
      some (.num ((validQ cells).length : ℚ)) ∧
    (numericEntry hasObj cells).lookup "mean" = some (meanStat (validQ cells)) ∧
    (numericEntry hasObj cells).lookup "min" = some (minStat (validQ cells)) ∧
    (numericEntry hasObj cells).lookup "max" = some (maxStat (validQ cells)) ∧
    (numericEntry hasObj cells).lookup "sum" = none := by
  cases hasObj <;> exact ⟨rfl, rfl, rfl, rfl, rfl⟩

/-- An object column's `describe` entry has a `count` key (its non-missing
count), for either value of the numeric-padding flag. -/
theorem lookup_objectEntry_count (hasNum : Bool) (cells : List (Option String)) :
    (objectEntry hasNum cells).lookup "count" =
      some (.num ((cells.filterMap id).length : ℚ)) := by
  cases hasNum <;> rfl

/-- Claim C2 (counterexample): on the 3-row dataset with numeric `id` and
non-numeric `name`, the analyze stage writes a statistics entry for the
non-numeric column `name` as well, and the numeric entry for `id` has no
`sum` key at all — `analysis_tool` is `describe(include="all")`, not the
`{count, mean, sum, min, max}` map the claim describes. -/
theorem C2_counterexample :
    1 ≤ dfMixed.numRows ∧ dfMixed.cols.any Col.isNumeric = true ∧
    ((runPipeline (ingestion_tool (readOk dfMixed)) realCleanF analysis_tool
        (realSummarizeF llmDown (fun _ => "STATS")) "/tmp/u.csv").state?.map
      (fun st => st.numeric_summary.map (List.map Prod.fst))) =
      some (some ["id", "name"]) ∧
    (describeAll dfMixed).map Prod.fst = ["id", "name"] ∧
    ((describeAll dfMixed).lookup "name").isSome = true ∧
    ((describeAll dfMixed).lookup "id").map (fun entry => entry.lookup "sum") =
      some none := by decide

/-- Claim C2 (corrected): for every successfully ingested dataset with at
least one row and at least one numeric column, the analyze stage records
`describe(include="all").to_dict()`: one statistics entry for **every**
column (non-numeric included), keyed by column name in column order; each
numeric column's entry carries `count`, `mean`, `min`, `max` computed over
the column's non-missing values — unrounded, with no `sum` key (the full
entry also carries `std` and the `25%/50%/75%` quantiles); each non-numeric
column's entry carries the object statistics (`count` of non-missing values,
with `unique/top/freq`). -/
theorem C2_analyze_writes_describe_all
    (path : String) (df : DataFrame)
    (sF : NumSummary → NullSummary → Except String SummOut)
    (_hrow : 1 ≤ df.numRows) (hnum : df.cols.any Col.isNumeric = true) :
    (runPipeline (ingestion_tool (readOk df)) realCleanF analysis_tool sF
        path).steps[2]? =
      some { step := "analyzer", agent := "analyzer"
             description := analyzerDescription, status := "completed"
             output := some (.analyze (describeAll df)), error := none } ∧
    ((runPipeline (ingestion_tool (readOk df)) realCleanF analysis_tool sF
        path).state?.map SharedState.numeric_summary) =
      some (some (describeAll df)) ∧
    (describeAll df).map Prod.fst = df.columnNames ∧
    (∀ nm cells, Col.numeric nm cells ∈ df.cols →
      ∃ entry, (nm, entry) ∈ describeAll df ∧
        entry.lookup "count" = some (.num ((validQ cells).length : ℚ)) ∧
        entry.lookup "mean" = some (meanStat (validQ cells)) ∧
        entry.lookup "min" = some (minStat (validQ cells)) ∧
        entry.lookup "max" = some (maxStat (validQ cells)) ∧
        entry.lookup "sum" = none) ∧
    (∀ nm cells, Col.object nm cells ∈ df.cols →
      ∃ entry, (nm, entry) ∈ describeAll df ∧
        entry.lookup "count" = some (.num ((cells.filterMap id).length : ℚ))) := by
  obtain ⟨c0, rest, hc⟩ : ∃ c0 rest, df.cols = c0 :: rest := by
    cases hh : df.cols with
    | nil => rw [hh] at hnum; simp at hnum
    | cons c0 rest => exact ⟨c0, rest, rfl⟩
  have hA : analysis_tool df = .ok (describeAll df) := by
    unfold analysis_tool
    rw [if_neg (by simp [hc])]
  have hne : (describeAll df).isEmpty = false := by simp [describeAll, hc]
  refine ⟨?_, ?_, ?_, ?_, ?_⟩
  · simp [runPipeline, ingestion_tool, readOk, Except.map, realCleanF, hA,
      PipelineOutcome.steps]
  · cases hs : sF (describeAll df) ((cleaning_tool df).null_summary) <;>
      simp [runPipeline, ingestion_tool, readOk, Except.map, realCleanF, hA,
        hne, hs, PipelineOutcome.state?]
  · simp [describeAll, DataFrame.columnNames]
  · intro nm cells hmem
    refine ⟨numericEntry (df.cols.any (fun c => !c.isNumeric)) cells, ?_,
      lookup_numericEntry _ cells⟩
    have hmm := List.mem_map_of_mem
      (f := fun c => (c.name,
        describeEntry (df.cols.any Col.isNumeric)
          (df.cols.any (fun c => !c.isNumeric)) c)) hmem
    simpa [describeAll, describeEntry, Col.name] using hmm
  · intro nm cells hmem
    refine ⟨objectEntry (df.cols.any Col.isNumeric) cells, ?_,
      lookup_objectEntry_count _ cells⟩
    have hmm := List.mem_map_of_mem
      (f := fun c => (c.name,
        describeEntry (df.cols.any Col.isNumeric)
          (df.cols.any (fun c => !c.isNumeric)) c)) hmem
    simpa [describeAll, describeEntry, Col.name] using hmm

/-- Witness for C2 on the mixed dataset. -/
theorem C2_analyze_writes_describe_all_witness :
    (1 ≤ dfMixed.numRows ∧ dfMixed.cols.any Col.isNumeric = true) ∧
    (describeAll dfMixed).map Prod.fst = dfMixed.columnNames :=
  ⟨⟨by decide, by decide⟩,
   (C2_analyze_writes_describe_all "/tmp/u.csv" dfMixed
      (realSummarizeF llmDown (fun _ => "STATS")) (by decide) (by decide)).2.2.1⟩

/-! ### Claim C3 — summarizer fallback when the LLM fails -/

/-- The templated fallback is never the empty string. -/
theorem fallback_ne_empty (s : String) :
    "(LLM unavailable) Key data statistics:\n" ++ s ≠ "" := by
  intro h
  have h2 := congrArg String.length h
  rw [String.length_append] at h2
  have h3 : (0 : Nat) < ("(LLM unavailable) Key data statistics:\n").length := by
    decide
  simp only [String.length_empty] at h2
  omega

/-- Claim C3 (confirmed): whenever the analyze stage has produced a
(nonempty) statistics dict and every LLM call raises, the summarize stage
still completes: its `StageResult` has status `completed` (not `failed`)
and it records the deterministic templated fallback
`"(LLM unavailable) Key data statistics:\n" + stats_text`, which is
non-empty, as the run's `summary_text`. -/
theorem C3_summarizer_fallback_completed
    (path : String) (df : DataFrame)
    (cleanF : DataFrame → Except String CleanOut)
    (analyzeF : DataFrame → Except String NumSummary)
    (ns : NumSummary) (pdToString : NumSummary → String)
    (ha : analyzeF df = .ok ns) (hne : ns.isEmpty = false) :
    (runPipeline (ingestion_tool (readOk df)) cleanF analyzeF
        (realSummarizeF llmDown pdToString) path).steps[3]? =
      some { step := "summarizer", agent := "summarizer"
             description := summarizerDescription, status := "completed"
             output := some (.summarize
               ("(LLM unavailable) Key data statistics:\n" ++ pdToString ns))
             error := none } ∧
    ((runPipeline (ingestion_tool (readOk df)) cleanF analyzeF
        (realSummarizeF llmDown pdToString) path).state?.map
      SharedState.summary_text) =
      some (some ("(LLM unavailable) Key data statistics:\n" ++ pdToString ns)) ∧
    "(LLM unavailable) Key data statistics:\n" ++ pdToString ns ≠ "" := by
  refine ⟨?_, ?_, fallback_ne_empty _⟩ <;>
    cases hcf : cleanF df <;>
      simp [runPipeline, ingestion_tool, readOk, Except.map, hcf, ha, hne,
        realSummarizeF, summarizer_tool, summarize_with_llm, llmDown,
        PipelineOutcome.steps, PipelineOutcome.state?]

/-- Witness for C3 on the spec's example dataset. -/
theorem C3_summarizer_fallback_completed_witness :
    (analysis_tool dfAmount = .ok (describeAll dfAmount) ∧
      (describeAll dfAmount).isEmpty = false) ∧
    ((runPipeline (ingestion_tool (readOk dfAmount)) realCleanF analysis_tool
        (realSummarizeF llmDown (fun _ => "STATS")) "/tmp/u.csv").state?.map
      SharedState.summary_text) =
      some (some ("(LLM unavailable) Key data statistics:\n" ++ "STATS")) :=
  ⟨⟨rfl, by decide⟩,
   (C3_summarizer_fallback_completed "/tmp/u.csv" dfAmount realCleanF
      analysis_tool (describeAll dfAmount) (fun _ => "STATS") rfl
      (by decide)).2.1⟩

end InsightMesh
